import Mathlib

/-!
Verification of the Zurich tax estimator and budget optimizer.

The program is shallowly embedded over the rationals: the Python floats of
the source are modelled as exact values in `ℚ`, Python lists/tuples/dicts
become Lean lists/tuples, and the Streamlit UI layer is dropped; only the
pure computations the claims are about are embedded.
-/

namespace TaxOpt

/-- A tax bracket `(lowerBound, upperBound, baseAmount, marginalRate)`,
mirroring the 4-tuples of `ZURICH_BASIC_BRACKETS` and `FEDERAL_BRACKETS`. -/
abbrev Bracket := ℚ × ℚ × ℚ × ℚ

/-- The cantonal basic-tax table `ZURICH_BASIC_BRACKETS` from the source. -/
def ZURICH_BASIC_BRACKETS : List Bracket := [
  (0, 6900, 0.0, 0.0),
  (6900, 11800, 0.0, 0.02),
  (11800, 16600, 98.0, 0.03),
  (16600, 24500, 242.0, 0.04),
  (24500, 34100, 558.0, 0.05),
  (34100, 45100, 1038.0, 0.06),
  (45100, 58000, 1698.0, 0.07),
  (58000, 75400, 2601.0, 0.08),
  (75400, 109000, 3993.0, 0.09),
  (109000, 142200, 7017.0, 0.10),
  (142200, 194900, 10337.0, 0.11),
  (194900, 263300, 16134.0, 0.12),
  (263300, 10^12, 24342.0, 0.13)]

/-- The federal-tax table `FEDERAL_BRACKETS` from the source. -/
def FEDERAL_BRACKETS : List Bracket := [
  (0, 14700, 0.0, 0.0),
  (14700, 31500, 0.0, 0.01),
  (31500, 41400, 168.0, 0.02),
  (41400, 52400, 384.0, 0.03),
  (52400, 75500, 714.0, 0.04),
  (75500, 103600, 1582.0, 0.055),
  (103600, 134600, 3100.0, 0.065),
  (134600, 176000, 5140.0, 0.075),
  (176000, 755000, 8360.0, 0.085),
  (755000, 10^12, 54860.0, 0.095)]

/-- The bracket-scanning loop shared by `zurich_basic_tax` and `federal_tax`:
walk the table in order and return `base + (x - low) * pct` for the first
bracket with `x > low` and `x <= high`; fall through to `0.0` when no
bracket matches. -/
def evalBrackets : List Bracket → ℚ → ℚ
  | [], _ => 0
  | (low, high, base, pct) :: rest, x =>
      if low < x ∧ x ≤ high then base + (x - low) * pct else evalBrackets rest x

/-- `zurich_basic_tax` from the source: clamp the income at 0, then scan
`ZURICH_BASIC_BRACKETS`. -/
def zurich_basic_tax (taxable_income_chf : ℚ) : ℚ :=
  evalBrackets ZURICH_BASIC_BRACKETS (max 0 taxable_income_chf)

/-- `federal_tax` from the source: clamp the income at 0, then scan
`FEDERAL_BRACKETS`. -/
def federal_tax (taxable_income_chf : ℚ) : ℚ :=
  evalBrackets FEDERAL_BRACKETS (max 0 taxable_income_chf)

/-- Boundary continuity of a bracket table under an evaluator `f`: for each
adjacent pair of brackets, evaluating at the lower bracket's upper bound
(`b.2.1`) gives the next bracket's base amount (`c.2.2.1`). -/
def BoundaryContinuous (f : ℚ → ℚ) (bs : List Bracket) : Prop :=
  List.Chain' (fun b c => f b.2.1 = c.2.2.1) bs

/-- The baseline estimate record stored by Tab 1 in
`st.session_state["estimate"]`, restricted to the fields the tax formula
and the optimizer read. -/
structure Estimate where
  taxable_income : ℚ
  total_tax : ℚ
  commune_multiplier : ℚ
  church_percent : ℚ
  canton_factor : ℚ
  pillar3a_current : ℚ
  pillar3a_cap : ℚ
deriving DecidableEq

/-- `basic * canton_factor * commune_multiplier`, the cantonal+communal tax
line shared by Tab 1 (line 346) and `calc_total_tax_from_ti` (line 437). -/
def calc_cantonal (est : Estimate) (ti : ℚ) : ℚ :=
  zurich_basic_tax ti * est.canton_factor * est.commune_multiplier

/-- `cantonal * (church_percent / 100)`, the church-tax line shared by Tab 1
(line 347) and `calc_total_tax_from_ti` (line 438). -/
def calc_church (est : Estimate) (ti : ℚ) : ℚ :=
  calc_cantonal est ti * (est.church_percent / 100)

/-- `calc_total_tax_from_ti` from the optimizer (lines 435-440); with
`canton_factor = 0.98` it is also exactly the Tab-1 total (lines 344-349):
`cantonal + church + federal`. -/
def calc_total_tax_from_ti (est : Estimate) (ti : ℚ) : ℚ :=
  calc_cantonal est ti + calc_church est ti + federal_tax ti

/-- The municipality catalog `MUNICIPALITIES` from the source, as
`(name, commune_multiplier, church_tax_percent)` rows. -/
def MUNICIPALITIES : List (String × ℚ × ℚ) := [
  ("Zurich City", 1.19, 0.50),
  ("Kloten", 1.10, 0.50),
  ("Opfikon", 1.12, 0.50),
  ("Winterthur", 1.18, 0.50),
  ("Uster", 1.16, 0.50),
  ("Dübendorf", 1.17, 0.50)]

/-- The Tab-1 scenario of claim C4: taxable income 80000, Zurich City
(multiplier 1.19, church 0.5%), canton factor 0.98 (line 344). The
`taxable_income`/`total_tax`/pillar-3a fields are irrelevant to the formula
and set to 0. -/
def estZurichCity : Estimate :=
  { taxable_income := 0, total_tax := 0, commune_multiplier := 1.19,
    church_percent := 0.50, canton_factor := 0.98,
    pillar3a_current := 0, pillar3a_cap := 0 }

/-- C1: corrected. The cantonal table is continuous at every adjacent
bracket boundary: evaluating `zurich_basic_tax` at each bracket's upper
bound yields the next bracket's base amount, so `zurich_basic_tax` has no
jump discontinuities. (The federal table violates the original claim; see
the counterexample.) -/
theorem C1_zurich_boundaries_continuous :
    BoundaryContinuous zurich_basic_tax ZURICH_BASIC_BRACKETS := by
  simp only [BoundaryContinuous, ZURICH_BASIC_BRACKETS, List.chain'_cons,
    List.chain'_singleton, and_true]
  norm_num [zurich_basic_tax, evalBrackets, ZURICH_BASIC_BRACKETS, max_def]

/-- C1, counterexample: the federal table is not continuous at its bracket
boundaries. At the shared boundary 41400, evaluating the lower bracket
gives `168 + (41400 - 31500) * 0.02 = 366`, but the next bracket's base
amount is `384`. -/
theorem C1_federal_boundary_discontinuous :
    ¬ BoundaryContinuous federal_tax FEDERAL_BRACKETS ∧
      federal_tax 41400 = 366 ∧
      ((41400 : ℚ), (52400 : ℚ), (384 : ℚ), (0.03 : ℚ)) ∈ FEDERAL_BRACKETS := by
  refine ⟨?_, ?_, ?_⟩
  · intro h
    simp only [BoundaryContinuous, FEDERAL_BRACKETS, List.chain'_cons,
      List.chain'_singleton, and_true] at h
    have h3 := h.2.2.1
    norm_num [federal_tax, evalBrackets, FEDERAL_BRACKETS, max_def] at h3
  · norm_num [federal_tax, evalBrackets, FEDERAL_BRACKETS, max_def]
  · simp only [FEDERAL_BRACKETS, List.mem_cons, Prod.mk.injEq]
    norm_num

/-- C4: corrected. At taxable income 80000 with Zurich City parameters
(multiplier 1.19, church 0.5%, canton factor 0.98) the code's exact values
are: basic `3993 + (80000 - 75400) * 0.09 = 4407` (as claimed), cantonal
`4407 * 0.98 * 1.19 = 5139.4434` (the claim said 5138.42), church
`25.697217` (within 0.01 of the claimed 25.69), federal
`1582 + (80000 - 75500) * 0.055 = 1829.5` (the claim said 1704.75), and
total `6994.640617` (the claim said 6868.86). -/
theorem C4_scenario_exact_values :
    zurich_basic_tax 80000 = 3993 + (80000 - 75400) * 0.09 ∧
    zurich_basic_tax 80000 = 4407 ∧
    calc_cantonal estZurichCity 80000 = 5139.4434 ∧
    calc_church estZurichCity 80000 = 25.697217 ∧
    |calc_church estZurichCity 80000 - 25.69| ≤ 0.01 ∧
    federal_tax 80000 = 1582 + (80000 - 75500) * 0.055 ∧
    federal_tax 80000 = 1829.5 ∧
    calc_total_tax_from_ti estZurichCity 80000 = 6994.640617 := by
  refine ⟨?_, ?_, ?_, ?_, ?_, ?_, ?_, ?_⟩ <;>
    norm_num [calc_total_tax_from_ti, calc_church, calc_cantonal, estZurichCity,
      zurich_basic_tax, federal_tax, evalBrackets, ZURICH_BASIC_BRACKETS,
      FEDERAL_BRACKETS, max_def, abs_le]

/-- C4, counterexample to the claim as stated: the cantonal component at the
scenario is not within 0.01 of the claimed 5138.42 (it is 5139.4434). -/
theorem C4_cantonal_claim_value_wrong :
    ¬ |calc_cantonal estZurichCity 80000 - 5138.42| ≤ 0.01 := by
  norm_num [calc_cantonal, estZurichCity, zurich_basic_tax, evalBrackets,
    ZURICH_BASIC_BRACKETS, max_def, abs_le]

/-- C9: confirmed. For every income `x ≤ 0` (0 included), the clamp makes
both evaluators scan at `max 0 x = 0`, no bracket satisfies `0 > low`, and
the fall-through returns 0; consequently every tax component of the
estimate formula (basic, cantonal, church, federal, total) is 0 there, for
any municipality parameters. -/
theorem C9_nonpositive_income_all_components_zero (x : ℚ) (hx : x ≤ 0)
    (est : Estimate) :
    zurich_basic_tax x = 0 ∧ federal_tax x = 0 ∧
    calc_cantonal est x = 0 ∧ calc_church est x = 0 ∧
    calc_total_tax_from_ti est x = 0 := by
  have hmax : max 0 x = 0 := max_eq_left hx
  have hz : zurich_basic_tax x = 0 := by
    rw [zurich_basic_tax, hmax]
    norm_num [evalBrackets, ZURICH_BASIC_BRACKETS]
  have hf : federal_tax x = 0 := by
    rw [federal_tax, hmax]
    norm_num [evalBrackets, FEDERAL_BRACKETS]
  have hc : calc_cantonal est x = 0 := by rw [calc_cantonal, hz]; ring
  have hch : calc_church est x = 0 := by rw [calc_church, hc]; ring
  refine ⟨hz, hf, hc, hch, ?_⟩
  rw [calc_total_tax_from_ti, hc, hch, hf]; ring

/-- A bracket table is a well-formed chain starting at lower bound `lo` with
entering base `v`: each bracket starts where the previous one ended, its
base is the value the previous bracket reaches at its upper bound
(continuity), bounds are ordered and marginal rates are nonnegative. -/
def WfChain : ℚ → ℚ → List Bracket → Prop
  | _, _, [] => True
  | lo, v, (low, high, base, pct) :: rest =>
      low = lo ∧ base = v ∧ lo ≤ high ∧ 0 ≤ pct ∧
        WfChain high (base + (high - low) * pct) rest

/-- Upper bound of the last bracket of a table (`lo` for the empty table). -/
def lastHigh : ℚ → List Bracket → ℚ
  | lo, [] => lo
  | _, (_, high, _, _) :: rest => lastHigh high rest

/-- Scanning a well-formed chain at or below its starting lower bound falls
through every bracket and returns 0. -/
theorem evalBrackets_eq_zero_of_le {bs : List Bracket} :
    ∀ {lo v x : ℚ}, WfChain lo v bs → x ≤ lo → evalBrackets bs x = 0 := by
  induction bs with
  | nil => intro lo v x _ _; rfl
  | cons b rest ih =>
      obtain ⟨low, high, base, pct⟩ := b
      intro lo v x hwf hx
      obtain ⟨hl, hb, hh, hp, hrest⟩ := hwf
      rw [evalBrackets, if_neg]
      · exact ih hrest (le_trans hx (hl ▸ hh))
      · rintro ⟨hlt, -⟩
        exact absurd hlt (not_lt.mpr (hl ▸ hx))

/-- Scanning a well-formed chain with nonnegative entering base never
returns a negative value. -/
theorem evalBrackets_nonneg {bs : List Bracket} :
    ∀ {lo v : ℚ}, WfChain lo v bs → 0 ≤ v → ∀ x : ℚ, 0 ≤ evalBrackets bs x := by
  induction bs with
  | nil => intro lo v _ _ x; exact le_refl 0
  | cons b rest ih =>
      obtain ⟨low, high, base, pct⟩ := b
      intro lo v hwf hv x
      obtain ⟨hl, hb, hh, hp, hrest⟩ := hwf
      rw [evalBrackets]
      split
      · rename_i hcond
        have h1 : 0 ≤ (x - low) * pct :=
          mul_nonneg (sub_nonneg.mpr hcond.1.le) hp
        have h2 : 0 ≤ base := hb ▸ hv
        linarith
      · refine ih hrest ?_ x
        have h1 : 0 ≤ (high - low) * pct :=
          mul_nonneg (sub_nonneg.mpr (hl ▸ hh)) hp
        have h2 : 0 ≤ base := hb ▸ hv
        linarith

/-- Inside a well-formed chain, every value reached is at least the entering
base `v`. -/
theorem le_evalBrackets {bs : List Bracket} :
    ∀ {lo v y : ℚ}, WfChain lo v bs → lo < y → y ≤ lastHigh lo bs →
      v ≤ evalBrackets bs y := by
  induction bs with
  | nil => intro lo v y _ hlt hle; exact absurd (lt_of_lt_of_le hlt hle) (lt_irrefl lo)
  | cons b rest ih =>
      obtain ⟨low, high, base, pct⟩ := b
      intro lo v y hwf hlt hle
      obtain ⟨hl, hb, hh, hp, hrest⟩ := hwf
      rw [evalBrackets]
      by_cases hyh : y ≤ high
      · rw [if_pos ⟨hl ▸ hlt, hyh⟩]
        have h1 : 0 ≤ (y - low) * pct :=
          mul_nonneg (sub_nonneg.mpr (hl ▸ hlt).le) hp
        linarith [hb ▸ le_refl v]
      · rw [if_neg (fun hcon => hyh hcon.2)]
        have hstep : v ≤ base + (high - low) * pct := by
          have h1 : 0 ≤ (high - low) * pct :=
            mul_nonneg (sub_nonneg.mpr (hl ▸ hh)) hp
          linarith [hb ▸ le_refl v]
        exact le_trans hstep (ih hrest (not_le.mp hyh) hle)

/-- Monotonicity of the bracket scan on a well-formed chain: between the
chain's starting lower bound and its last upper bound, the scan is
non-decreasing. -/
theorem evalBrackets_mono {bs : List Bracket} :
    ∀ {lo v x y : ℚ}, WfChain lo v bs → lo < x → x ≤ y → y ≤ lastHigh lo bs →
      evalBrackets bs x ≤ evalBrackets bs y := by
  induction bs with
  | nil => intro lo v x y _ _ _ _; exact le_refl 0
  | cons b rest ih =>
      obtain ⟨low, high, base, pct⟩ := b
      intro lo v x y hwf hx hxy hy
      obtain ⟨hl, hb, hh, hp, hrest⟩ := hwf
      by_cases hyh : y ≤ high
      · have hxh : x ≤ high := le_trans hxy hyh
        have ex : evalBrackets ((low, high, base, pct) :: rest) x =
            base + (x - low) * pct := by
          rw [evalBrackets, if_pos ⟨hl ▸ hx, hxh⟩]
        have ey : evalBrackets ((low, high, base, pct) :: rest) y =
            base + (y - low) * pct := by
          rw [evalBrackets, if_pos ⟨hl ▸ lt_of_lt_of_le hx hxy, hyh⟩]
        rw [ex, ey]
        have h1 : (x - low) * pct ≤ (y - low) * pct :=
          mul_le_mul_of_nonneg_right (by linarith) hp
        linarith
      · have hhy : high < y := not_le.mp hyh
        have ey : evalBrackets ((low, high, base, pct) :: rest) y =
            evalBrackets rest y := by
          rw [evalBrackets, if_neg (fun hcon => hyh hcon.2)]
        by_cases hxh : x ≤ high
        · have ex : evalBrackets ((low, high, base, pct) :: rest) x =
              base + (x - low) * pct := by
            rw [evalBrackets, if_pos ⟨hl ▸ hx, hxh⟩]
          rw [ex, ey]
          have hstep : base + (x - low) * pct ≤ base + (high - low) * pct := by
            have h1 : (x - low) * pct ≤ (high - low) * pct :=
              mul_le_mul_of_nonneg_right (by linarith) hp
            linarith
          exact le_trans hstep (le_evalBrackets hrest hhy hy)
        · have ex : evalBrackets ((low, high, base, pct) :: rest) x =
              evalBrackets rest x := by
            rw [evalBrackets, if_neg (fun hcon => hxh hcon.2)]
          rw [ex, ey]
          exact ih hrest (not_le.mp hxh) hxy hy

/-- The Zurich cantonal table is a well-formed continuous chain from 0. -/
theorem zurich_wfChain : WfChain 0 0 ZURICH_BASIC_BRACKETS := by
  norm_num [WfChain, ZURICH_BASIC_BRACKETS]

/-- The last upper bound of the Zurich cantonal table is `10^12`. -/
theorem zurich_lastHigh : lastHigh 0 ZURICH_BASIC_BRACKETS = 10^12 := rfl

/-- Monotonicity of `zurich_basic_tax` on incomes up to its top bracket's
upper bound `10^12`. -/
theorem zurich_basic_tax_mono (x1 x2 : ℚ) (h12 : x1 ≤ x2)
    (h2 : x2 ≤ 10^12) : zurich_basic_tax x1 ≤ zurich_basic_tax x2 := by
  rw [zurich_basic_tax, zurich_basic_tax]
  have ha : (0 : ℚ) ≤ max 0 x1 := le_max_left _ _
  rcases eq_or_lt_of_le ha with h0 | hpos
  · rw [← h0]
    rw [evalBrackets_eq_zero_of_le zurich_wfChain (le_refl 0)]
    exact evalBrackets_nonneg zurich_wfChain (le_refl 0) _
  · refine evalBrackets_mono zurich_wfChain hpos (max_le_max (le_refl 0) h12) ?_
    rw [zurich_lastHigh]
    exact max_le (by norm_num) h2

/-- C2: corrected. `zurich_basic_tax` is monotone non-decreasing on all
incomes up to `10^12`, the upper bound of its top bracket (beyond which the
scan falls through to 0). The original claim also asserted monotonicity of
`federal_tax`, which fails; see the counterexample. -/
theorem C2_zurich_basic_tax_monotone (x1 x2 : ℚ) (h12 : x1 ≤ x2)
    (h2 : x2 ≤ 10^12) : zurich_basic_tax x1 ≤ zurich_basic_tax x2 :=
  zurich_basic_tax_mono x1 x2 h12 h2

/-- C2, witness: monotonicity applied at the concrete pair 30000 ≤ 40000. -/
theorem C2_zurich_basic_tax_monotone_witness :
    zurich_basic_tax 30000 ≤ zurich_basic_tax 40000 :=
  C2_zurich_basic_tax_monotone 30000 40000 (by norm_num) (by norm_num)

/-- C2, counterexample: `federal_tax` is not monotone. At the discontinuous
boundary 75500 the federal table jumps down: `federal_tax 75500 = 1638` but
`federal_tax 75501 = 1582.055`, so the pair `x1 = 75500 < x2 = 75501 ≥ 0`
violates the claimed `federal_tax x1 ≤ federal_tax x2`. -/
theorem C2_federal_tax_not_monotone :
    ¬ federal_tax 75500 ≤ federal_tax 75501 ∧
      (75500 : ℚ) < 75501 ∧ (0 : ℚ) ≤ 75501 := by
  refine ⟨?_, by norm_num, by norm_num⟩
  norm_num [federal_tax, evalBrackets, FEDERAL_BRACKETS, max_def]

/-- C3: corrected. For fixed nonnegative municipality parameters and canton
factor, the cantonal-plus-church part of the total-tax formula is monotone
non-decreasing in taxable income (up to the cantonal table's last bound
`10^12`). The full total of the original claim is not monotone because the
federal component jumps down at its discontinuous boundaries; see the
counterexample. -/
theorem C3_cantonal_plus_church_monotone (est : Estimate)
    (hcf : 0 ≤ est.canton_factor) (hcm : 0 ≤ est.commune_multiplier)
    (hcp : 0 ≤ est.church_percent) (t1 t2 : ℚ) (h12 : t1 ≤ t2)
    (h2 : t2 ≤ 10^12) :
    calc_cantonal est t1 + calc_church est t1 ≤
      calc_cantonal est t2 + calc_church est t2 := by
  have hmono := zurich_basic_tax_mono t1 t2 h12 h2
  have hfac : 0 ≤ est.canton_factor * est.commune_multiplier *
      (1 + est.church_percent / 100) := by positivity
  have he : ∀ t : ℚ, calc_cantonal est t + calc_church est t =
      zurich_basic_tax t * (est.canton_factor * est.commune_multiplier *
        (1 + est.church_percent / 100)) := by
    intro t
    rw [calc_church, calc_cantonal]
    ring
  rw [he t1, he t2]
  exact mul_le_mul_of_nonneg_right hmono hfac

/-- C3, witness: the cantonal-plus-church monotonicity applied at the Zurich
City parameters and the pair 50000 ≤ 60000. -/
theorem C3_cantonal_plus_church_monotone_witness :
    calc_cantonal estZurichCity 50000 + calc_church estZurichCity 50000 ≤
      calc_cantonal estZurichCity 60000 + calc_church estZurichCity 60000 :=
  C3_cantonal_plus_church_monotone estZurichCity (by norm_num [estZurichCity])
    (by norm_num [estZurichCity]) (by norm_num [estZurichCity])
    50000 60000 (by norm_num) (by norm_num)

/-- C3, counterexample: with the Zurich City parameters the total tax is
not monotone in taxable income: the federal component drops by 55.945 at
the 75500 boundary while the cantonal side gains only about 0.105, so the
total at 75501 is strictly below the total at 75500. -/
theorem C3_total_tax_not_monotone :
    calc_total_tax_from_ti estZurichCity 75501 <
      calc_total_tax_from_ti estZurichCity 75500 ∧ (75500 : ℚ) < 75501 := by
  refine ⟨?_, by norm_num⟩
  norm_num [calc_total_tax_from_ti, calc_church, calc_cantonal, estZurichCity,
    zurich_basic_tax, federal_tax, evalBrackets, ZURICH_BASIC_BRACKETS,
    FEDERAL_BRACKETS, max_def]

/-- Python's `round` applied to an exact rational: round to the nearest
integer, ties to the even integer (banker's rounding). -/
def pyRound (q : ℚ) : ℤ :=
  if q - ⌊q⌋ < 1/2 then ⌊q⌋
  else if 1/2 < q - ⌊q⌋ then ⌊q⌋ + 1
  else if ⌊q⌋ % 2 = 0 then ⌊q⌋ else ⌊q⌋ + 1

/-- `round(x, 2)` from the source: round to two decimal places. -/
def round2 (q : ℚ) : ℚ := (pyRound (q * 100) : ℚ) / 100

theorem pyRound_nonneg {q : ℚ} (h : 0 ≤ q) : 0 ≤ pyRound q := by
  have h0 : (0 : ℤ) ≤ ⌊q⌋ := Int.floor_nonneg.mpr h
  unfold pyRound
  split_ifs <;> omega

theorem round2_nonneg {q : ℚ} (h : 0 ≤ q) : 0 ≤ round2 q := by
  unfold round2
  have := pyRound_nonneg (mul_nonneg h (by norm_num : (0:ℚ) ≤ 100))
  positivity

/-- On an exact two-decimal amount, `round(x, 2)` is the identity. -/
theorem round2_eq_self {q : ℚ} (h : ∃ m : ℤ, q * 100 = (m : ℚ)) :
    round2 q = q := by
  obtain ⟨m, hm⟩ := h
  have h1 : pyRound (q * 100) = m := by
    unfold pyRound
    rw [hm, Int.floor_intCast]
    norm_num
  rw [round2, h1, ← hm]
  ring

/-- Commute mode options of the questionnaire. -/
inductive CommuteMode
  | publicTransport
  | car
  | bikeWalk
  | mixed
deriving DecidableEq

/-- Employment-type options of the questionnaire. -/
inductive EmploymentType
  | employeeWithPensionFund
  | selfEmployedOrNoPensionFund
deriving DecidableEq

/-- The questionnaire answers of Tab 1 that feed the deduction aggregation
and taxable-income computation (lines 228-341). Dependents are reduced to
their declared support amounts, the only field of theirs the computation
reads. -/
structure Profile where
  salary : ℚ
  other_income : ℚ
  foreign_income : ℚ
  benefits : ℚ
  commute_mode : CommuteMode
  commute_km_oneway : ℚ
  work_days_per_week : ℚ
  home_office : Bool
  ho_area : ℚ
  total_area : ℚ
  business_travel_costs : ℚ
  employment_type : EmploymentType
  pillar2_contrib : ℚ
  pillar3a_current : ℚ
  private_insurance_premiums : ℚ
  unreimbursed_medical : ℚ
  disability_costs : ℚ
  home_help_costs : ℚ
  childcare_costs : ℚ
  training_costs : ℚ
  children_school_fees : ℚ
  rent_paid : ℚ
  mortgage_interest : ℚ
  home_maintenance : ℚ
  energy_efficiency_costs : ℚ
  charitable : ℚ
  union_fees : ℚ
  legal_expenses : ℚ
  moving_costs : ℚ
  municipal_fees : ℚ
  foreign_taxes : ℚ
  berufskosten : ℚ
  vermoegensverwaltung : ℚ
  health_insurance : ℚ
  child_deduction : ℚ
  dependents_support : List ℚ
  net_income_override : ℚ

/-- `PILLAR3A_CAP_EMPLOYED` from the source. -/
def PILLAR3A_CAP_EMPLOYED : ℚ := 7056

/-- `PILLAR3A_CAP_SELFEMPLOYED_PERCENT` from the source. -/
def PILLAR3A_CAP_SELFEMPLOYED_PERCENT : ℚ := 0.20

/-- `gross_income = salary + other_income + foreign_income` (line 235). -/
def gross_income (p : Profile) : ℚ :=
  p.salary + p.other_income + p.foreign_income

/-- The pillar-3a cap (lines 236-239): the fixed constant for employees with
a pension fund, otherwise 20% of gross income floored at 0. -/
def pillar3a_cap (p : Profile) : ℚ :=
  match p.employment_type with
  | .employeeWithPensionFund => PILLAR3A_CAP_EMPLOYED
  | .selfEmployedOrNoPensionFund =>
      max 0 (gross_income p * PILLAR3A_CAP_SELFEMPLOYED_PERCENT)

/-- Whether the cap-exceeded warning of line 242 is emitted. -/
def pillar3a_warned (p : Profile) : Bool :=
  decide (pillar3a_cap p < p.pillar3a_current)

/-- `pillar3a_used` (lines 241-245): the declared contribution, capped. -/
def pillar3a_used (p : Profile) : ℚ :=
  if pillar3a_cap p < p.pillar3a_current then pillar3a_cap p
  else p.pillar3a_current

/-- `annual_commute_km = (one-way km * 2) * (work days per week * 52)`
(lines 251-253). -/
def annual_commute_km (p : Profile) : ℚ :=
  p.commute_km_oneway * 2 * (p.work_days_per_week * 52)

/-- The commute deduction before the positivity guard (lines 254-261). -/
def commute_ded (p : Profile) : ℚ :=
  match p.commute_mode with
  | .car => min (annual_commute_km p * 0.7) 3000
  | .bikeWalk => min (annual_commute_km p * 0.2) 1000
  | .mixed => min (annual_commute_km p * 0.35) 2500
  | .publicTransport => 0

/-- The home-office pro-rata amount `(ho_area / total_area) * rent * 0.4`
(lines 266-268). -/
def ho_ded (p : Profile) : ℚ :=
  p.ho_area / p.total_area * p.rent_paid * 0.4

/-- Total declared dependent support (line 334). -/
def dep_support_total (p : Profile) : ℚ := p.dependents_support.sum

/-- A conditional entry of the `deductions` dict: present exactly when its
guard holds. -/
def entry (c : Prop) [Decidable c] (k : String) (v : ℚ) : List (String × ℚ) :=
  if c then [(k, v)] else []

/-- The `deductions` dict of Tab 1 (lines 248-336) as an ordered
key-value list, entry for entry and guard for guard in source order. -/
def deductionsList (p : Profile) : List (String × ℚ) :=
  entry (0 < commute_ded p) "Commute (approx)" (round2 (commute_ded p)) ++
  entry (p.home_office = true ∧ 0 < p.total_area) "Home office (pro rata)"
    (round2 (ho_ded p)) ++
  entry (0 < pillar3a_used p) "Pillar 3a (used, capped)"
    (round2 (pillar3a_used p)) ++
  entry (0 < p.pillar2_contrib) "Pillar 2 (mandatory)"
    (round2 p.pillar2_contrib) ++
  entry (0 < p.private_insurance_premiums)
    "Private insurance premiums (entered, usually not deductible)"
    (round2 p.private_insurance_premiums) ++
  entry (0 < p.unreimbursed_medical) "Unreimbursed medical"
    (round2 p.unreimbursed_medical) ++
  entry (0 < p.disability_costs) "Disability / special care"
    (round2 p.disability_costs) ++
  entry (0 < p.home_help_costs) "Home help / nursing care"
    (round2 p.home_help_costs) ++
  entry (0 < p.childcare_costs) "Childcare costs" (round2 p.childcare_costs) ++
  entry (0 < p.training_costs) "Further training" (round2 p.training_costs) ++
  entry (0 < p.children_school_fees) "Children school fees"
    (round2 p.children_school_fees) ++
  entry (0 < p.rent_paid) "Rent (info for pro rata HO)"
    (round2 p.rent_paid) ++
  entry (0 < p.mortgage_interest) "Mortgage interest"
    (round2 p.mortgage_interest) ++
  entry (0 < p.home_maintenance) "Home maintenance"
    (round2 p.home_maintenance) ++
  entry (0 < p.energy_efficiency_costs) "Energy improvements"
    (round2 p.energy_efficiency_costs) ++
  entry (0 < p.charitable) "Charitable donations" (round2 p.charitable) ++
  entry (0 < p.union_fees) "Union / professional fees"
    (round2 p.union_fees) ++
  entry (0 < p.legal_expenses) "Legal expenses" (round2 p.legal_expenses) ++
  entry (0 < p.moving_costs) "Moving costs" (round2 p.moving_costs) ++
  entry (0 < p.municipal_fees) "Municipal fees" (round2 p.municipal_fees) ++
  entry (0 < p.foreign_taxes) "Foreign taxes paid" (round2 p.foreign_taxes) ++
  entry (0 < p.business_travel_costs) "Business travel & overnight"
    (round2 p.business_travel_costs) ++
  entry (0 < p.berufskosten) "Berufskosten Pauschale"
    (round2 p.berufskosten) ++
  entry (0 < p.vermoegensverwaltung)
    "Vermögensverwaltungskosten (Pausschale 0.3%)"
    (round2 p.vermoegensverwaltung) ++
  entry (0 < p.health_insurance) "Health insurance premiums (capped)"
    (round2 p.health_insurance) ++
  entry (0 < p.child_deduction) "Child deduction"
    (round2 p.child_deduction) ++
  entry (0 < dep_support_total p) "Dependent support (declared)"
    (round2 (dep_support_total p))

/-- `total_deductions = sum(deductions.values())` (line 339). -/
def total_deductions (p : Profile) : ℚ :=
  ((deductionsList p).map Prod.snd).sum

/-- `total_income = salary + other_income + foreign_income + benefits`
(line 340). -/
def total_income (p : Profile) : ℚ :=
  p.salary + p.other_income + p.foreign_income + p.benefits

/-- `taxable_income` (line 341): the positive manual override if given,
otherwise `max(0, total_income - total_deductions)`. -/
def taxable_income (p : Profile) : ℚ :=
  if 0 < p.net_income_override then p.net_income_override
  else max 0 (total_income p - total_deductions p)

/-- The home-office entry's contribution to the deduction total: the
pro-rata amount when the home-office guard of line 266 holds, else 0. -/
def ho_entry (p : Profile) : ℚ :=
  if p.home_office = true ∧ 0 < p.total_area then round2 (ho_ded p) else 0

theorem entry_snd_sum (c : Prop) [Decidable c] (k : String) (v : ℚ) :
    ((entry c k v).map Prod.snd).sum = if c then v else 0 := by
  by_cases hc : c <;> simp [entry, hc]

theorem ite_val_nonneg (c : Prop) [Decidable c] (v : ℚ) (h : c → 0 ≤ v) :
    0 ≤ if c then v else 0 := by
  by_cases hc : c
  · simpa [hc] using h hc
  · simp [hc]

/-- C5: confirmed. On two-decimal inputs (the identity case of `round(_, 2)`),
whenever `rent_paid > 0` the aggregation stores the full annual rent under
the key "Rent (info for pro rata HO)", whenever
`private_insurance_premiums > 0` it stores the full premium amount, both
are counted in `total_deductions` (on top of any home-office pro-rata
entry), and the computed taxable income (no manual override) is
correspondingly reduced. -/
theorem C5_rent_and_premiums_fully_counted (p : Profile)
    (hr : 0 < p.rent_paid) (hrd : ∃ m : ℤ, p.rent_paid * 100 = (m : ℚ))
    (hp : 0 < p.private_insurance_premiums)
    (hpd : ∃ m : ℤ, p.private_insurance_premiums * 100 = (m : ℚ))
    (hov : p.net_income_override ≤ 0) :
    ("Rent (info for pro rata HO)", p.rent_paid) ∈ deductionsList p ∧
    ("Private insurance premiums (entered, usually not deductible)",
      p.private_insurance_premiums) ∈ deductionsList p ∧
    p.rent_paid + p.private_insurance_premiums + ho_entry p ≤
      total_deductions p ∧
    taxable_income p ≤
      max 0 (total_income p -
        (p.rent_paid + p.private_insurance_premiums + ho_entry p)) := by
  have hrv : round2 p.rent_paid = p.rent_paid := round2_eq_self hrd
  have hpv : round2 p.private_insurance_premiums =
      p.private_insurance_premiums := round2_eq_self hpd
  have hmr : ("Rent (info for pro rata HO)", round2 p.rent_paid) ∈
      deductionsList p := by
    rw [deductionsList]
    simp only [List.append_assoc]
    refine List.mem_append_right _ (List.mem_append_right _
      (List.mem_append_right _ (List.mem_append_right _
      (List.mem_append_right _ (List.mem_append_right _
      (List.mem_append_right _ (List.mem_append_right _
      (List.mem_append_right _ (List.mem_append_right _
      (List.mem_append_right _ (List.mem_append_left _ ?_)))))))))))
    simp [entry, hr]
  have hmp : ("Private insurance premiums (entered, usually not deductible)",
      round2 p.private_insurance_premiums) ∈ deductionsList p := by
    rw [deductionsList]
    simp only [List.append_assoc]
    refine List.mem_append_right _ (List.mem_append_right _
      (List.mem_append_right _ (List.mem_append_right _
      (List.mem_append_left _ ?_))))
    simp [entry, hp]
  rw [hrv] at hmr
  rw [hpv] at hmp
  have nn : ∀ x : ℚ, 0 ≤ if 0 < x then round2 x else 0 := fun x =>
    ite_val_nonneg _ _ (fun h => round2_nonneg h.le)
  have hsum : p.rent_paid + p.private_insurance_premiums + ho_entry p ≤
      total_deductions p := by
    rw [total_deductions, deductionsList]
    simp only [List.map_append, List.sum_append, entry_snd_sum]
    have h02 : (if p.home_office = true ∧ 0 < p.total_area
        then round2 (ho_ded p) else 0) = ho_entry p := rfl
    have h05 : (if 0 < p.private_insurance_premiums
        then round2 p.private_insurance_premiums else 0) =
        p.private_insurance_premiums := by rw [if_pos hp, hpv]
    have h12 : (if 0 < p.rent_paid then round2 p.rent_paid else 0) =
        p.rent_paid := by rw [if_pos hr, hrv]
    linarith [nn (commute_ded p), nn (pillar3a_used p), nn p.pillar2_contrib,
      nn p.unreimbursed_medical, nn p.disability_costs, nn p.home_help_costs,
      nn p.childcare_costs, nn p.training_costs, nn p.children_school_fees,
      nn p.mortgage_interest, nn p.home_maintenance,
      nn p.energy_efficiency_costs, nn p.charitable, nn p.union_fees,
      nn p.legal_expenses, nn p.moving_costs, nn p.municipal_fees,
      nn p.foreign_taxes, nn p.business_travel_costs, nn p.berufskosten,
      nn p.vermoegensverwaltung, nn p.health_insurance, nn p.child_deduction,
      nn (dep_support_total p), h02, h05, h12]
  refine ⟨hmr, hmp, hsum, ?_⟩
  rw [taxable_income, if_neg (not_lt.mpr hov)]
  exact max_le_max (le_refl 0) (by linarith)

/-- A representative filled questionnaire: 80000 salary, 24000 rent, 300 of
private insurance premiums, no home office, employee with pension fund, no
manual override. -/
def baseProfile : Profile := {
  salary := 80000, other_income := 0, foreign_income := 0, benefits := 0,
  commute_mode := .publicTransport, commute_km_oneway := 10,
  work_days_per_week := 5, home_office := false, ho_area := 0,
  total_area := 0, business_travel_costs := 0,
  employment_type := .employeeWithPensionFund, pillar2_contrib := 0,
  pillar3a_current := 0, private_insurance_premiums := 300,
  unreimbursed_medical := 0, disability_costs := 0, home_help_costs := 0,
  childcare_costs := 0, training_costs := 0, children_school_fees := 0,
  rent_paid := 24000, mortgage_interest := 0, home_maintenance := 0,
  energy_efficiency_costs := 0, charitable := 0, union_fees := 0,
  legal_expenses := 0, moving_costs := 0, municipal_fees := 0,
  foreign_taxes := 0, berufskosten := 2400, vermoegensverwaltung := 0,
  health_insurance := 2900, child_deduction := 0, dependents_support := [],
  net_income_override := 0 }

/-- C5, witness: the theorem applied to `baseProfile`. -/
theorem C5_rent_and_premiums_fully_counted_witness :
    ("Rent (info for pro rata HO)", baseProfile.rent_paid) ∈
      deductionsList baseProfile ∧
    ("Private insurance premiums (entered, usually not deductible)",
      baseProfile.private_insurance_premiums) ∈ deductionsList baseProfile ∧
    baseProfile.rent_paid + baseProfile.private_insurance_premiums +
      ho_entry baseProfile ≤ total_deductions baseProfile ∧
    taxable_income baseProfile ≤
      max 0 (total_income baseProfile -
        (baseProfile.rent_paid + baseProfile.private_insurance_premiums +
          ho_entry baseProfile)) :=
  C5_rent_and_premiums_fully_counted baseProfile
    (by norm_num [baseProfile]) ⟨2400000, by norm_num [baseProfile]⟩
    (by norm_num [baseProfile]) ⟨30000, by norm_num [baseProfile]⟩
    (by norm_num [baseProfile])

/-- C8: confirmed. When the declared pillar-3a contribution exceeds its cap
(the fixed constant 7056 for employees with a pension fund, otherwise 20%
of `salary + other_income + foreign_income`), the computation substitutes
the capped value — `pillar3a_used = min(declared, cap)` — and raises the
warning flag of line 242; the (total) estimate computation still proceeds
on the capped value. -/
theorem C8_pillar3a_cap_substitution_and_warning (p : Profile)
    (hg : 0 ≤ gross_income p)
    (hexc : pillar3a_cap p < p.pillar3a_current) :
    pillar3a_used p = pillar3a_cap p ∧
    pillar3a_used p = min p.pillar3a_current (pillar3a_cap p) ∧
    pillar3a_warned p = true ∧
    pillar3a_cap p = (match p.employment_type with
      | .employeeWithPensionFund => PILLAR3A_CAP_EMPLOYED
      | .selfEmployedOrNoPensionFund =>
          gross_income p * PILLAR3A_CAP_SELFEMPLOYED_PERCENT) := by
  refine ⟨?_, ?_, ?_, ?_⟩
  · rw [pillar3a_used, if_pos hexc]
  · rw [pillar3a_used, if_pos hexc, min_eq_right hexc.le]
  · rw [pillar3a_warned]
    exact decide_eq_true hexc
  · cases hE : p.employment_type with
    | employeeWithPensionFund => simp [pillar3a_cap, hE]
    | selfEmployedOrNoPensionFund =>
        simp only [pillar3a_cap, hE]
        exact max_eq_right (mul_nonneg hg
          (by norm_num [PILLAR3A_CAP_SELFEMPLOYED_PERCENT]))

/-- The base questionnaire with an over-cap pillar-3a declaration of 8000
(cap: 7056 as employee with pension fund). -/
def overCapProfile : Profile := { baseProfile with pillar3a_current := 8000 }

/-- C8, witness: the theorem applied to `overCapProfile`. -/
theorem C8_pillar3a_cap_substitution_and_warning_witness :
    pillar3a_used overCapProfile = pillar3a_cap overCapProfile ∧
    pillar3a_used overCapProfile =
      min overCapProfile.pillar3a_current (pillar3a_cap overCapProfile) ∧
    pillar3a_warned overCapProfile = true ∧
    pillar3a_cap overCapProfile = (match overCapProfile.employment_type with
      | .employeeWithPensionFund => PILLAR3A_CAP_EMPLOYED
      | .selfEmployedOrNoPensionFund =>
          gross_income overCapProfile * PILLAR3A_CAP_SELFEMPLOYED_PERCENT) :=
  C8_pillar3a_cap_substitution_and_warning overCapProfile
    (by norm_num [gross_income, overCapProfile, baseProfile])
    (by norm_num [pillar3a_cap, overCapProfile, baseProfile,
      PILLAR3A_CAP_EMPLOYED])

/-- Wrap an exact nonnegative integer into a signed 64-bit value, the
semantics of `int(np.prod(counts))` on a 64-bit platform: numpy reduces the
Python ints over `int64`, silently wrapping on overflow. -/
def int64wrap (n : ℕ) : ℤ :=
  if n % 2^64 < 2^63 then ((n % 2^64 : ℕ) : ℤ)
  else ((n % 2^64 : ℕ) : ℤ) - 2^64

/-- Element count of `np.arange(0, stop, step)` for positive `step`:
`ceil(stop / step)` when `stop > 0`, else 0. -/
def arange_count (stop step : ℚ) : ℕ :=
  if stop ≤ 0 then 0 else (⌈stop / step⌉).toNat

/-- `list(np.arange(0, max_alloc + 1e-9, step).astype(int))` with the
source's fixed `step = 100` (lines 413 and 425): the multiples of 100
strictly below `max_alloc + 1e-9`. -/
def alloc_range (max_alloc : ℚ) : List ℕ :=
  (List.range (arange_count (max_alloc + 1/1000000000) 100)).map
    (fun i => i * 100)

/-- `remaining_pillar3a = max(0, pillar3a_cap - pillar3a_current)`
(line 417). -/
def remaining_pillar3a (est : Estimate) : ℚ :=
  max 0 (est.pillar3a_cap - est.pillar3a_current)

/-- `max_alloc` per channel (lines 419-423): the budget, additionally capped
by the remaining pillar-3a allowance for the "Pillar 3a" channel. -/
def channel_max_alloc (est : Estimate) (max_budget : ℚ) (cat : String) : ℚ :=
  if cat = "Pillar 3a" then min (remaining_pillar3a est) max_budget
  else max_budget

/-- `alloc_ranges` (lines 416-425) in the insertion order of the selected
channels. -/
def optimizer_ranges (est : Estimate) (sel : List String) (max_budget : ℚ) :
    List (List ℕ) :=
  sel.map (fun cat => alloc_range (channel_max_alloc est max_budget cat))

/-- `total_combinations = int(np.prod(counts)) if counts else 0`
(lines 428-429), with numpy's `int64` wraparound semantics. -/
def total_combinations (est : Estimate) (sel : List String)
    (max_budget : ℚ) : ℤ :=
  if sel = [] then 0
  else int64wrap (((optimizer_ranges est sel max_budget).map List.length).prod)

/-- `itertools.product` over a list of domains, rightmost domain varying
fastest. -/
def cartProd : List (List ℕ) → List (List ℕ)
  | [] => [[]]
  | xs :: rest => xs.flatMap (fun x => (cartProd rest).map (fun c => x :: c))

/-- One row of the optimizer's `results` list (lines 458-464). -/
structure Candidate where
  alloc : List (String × ℕ)
  extra : ℕ
  tax_saved : ℚ
  net_cost : ℚ
  tax_after : ℚ
deriving DecidableEq

/-- The loop body of lines 446-464 for one combination: skip the no-op and
over-budget combinations, otherwise build the candidate from the perturbed
taxable income. -/
def eval_combo (est : Estimate) (sel : List String) (max_budget : ℚ)
    (combo : List ℕ) : Option Candidate :=
  if combo.sum = 0 then none
  else if max_budget + 1/1000000000 < (combo.sum : ℚ) then none
  else
    let new_ti := max 0 (est.taxable_income - (combo.sum : ℚ))
    let new_tax := calc_total_tax_from_ti est new_ti
    some { alloc := sel.zip combo, extra := combo.sum,
           tax_saved := est.total_tax - new_tax,
           net_cost := (combo.sum : ℚ) - (est.total_tax - new_tax),
           tax_after := new_tax }

/-- The optimizer's `results` list (lines 446-464): the surviving candidates
of every combination of the per-channel ranges, in enumeration order. -/
def optimizer_resultsList (est : Estimate) (sel : List String)
    (max_budget : ℚ) : List Candidate :=
  (cartProd (optimizer_ranges est sel max_budget)).filterMap
    (eval_combo est sel max_budget)

/-- `df.sort_values(by="Net cost")` (line 470), modelled as a merge sort on
`net_cost` (the source's tie-break order is unspecified). -/
def sortCandidates (l : List Candidate) : List Candidate :=
  l.mergeSort (fun a b => decide (a.net_cost ≤ b.net_cost))

/-- Outcome of one "Run Optimizer" click (lines 427-476): refusal on an
overly large search space (line 431), the empty-result advisory (line 467),
or the ranked candidate list. -/
inductive OptResult
  | tooMany
  | noFeasible
  | ranked (candidates : List Candidate)
deriving DecidableEq

/-- The optimizer run (lines 427-476). -/
def run_optimizer (est : Estimate) (sel : List String) (max_budget : ℚ) :
    OptResult :=
  if 200000 < total_combinations est sel max_budget then OptResult.tooMany
  else if optimizer_resultsList est sel max_budget = [] then
    OptResult.noFeasible
  else OptResult.ranked (sortCandidates (optimizer_resultsList est sel max_budget))

/-- Whether a run ended in the search-space refusal of line 431. -/
def refusesToRun : OptResult → Bool
  | .tooMany => true
  | _ => false

theorem remaining_pillar3a_nonneg (est : Estimate) :
    0 ≤ remaining_pillar3a est := le_max_left _ _

/-- Evaluation rule for `arange_count` at the fixed step 100. -/
theorem arange_count_100_eq (stop : ℚ) (n : ℕ) (h0 : 0 < stop)
    (h1 : (n : ℚ) - 1 < stop / 100) (h2 : stop / 100 ≤ (n : ℚ)) :
    arange_count stop 100 = n := by
  rw [arange_count, if_neg (not_le.mpr h0)]
  have hc : ⌈stop / 100⌉ = (n : ℤ) := by
    rw [Int.ceil_eq_iff]
    constructor
    · push_cast
      exact h1
    · push_cast
      exact h2
  rw [hc]
  exact Int.toNat_natCast n

theorem alloc_range_zero : alloc_range 0 = [0] := by
  rw [alloc_range,
    arange_count_100_eq (0 + 1/1000000000) 1 (by norm_num) (by norm_num)
      (by norm_num)]
  rfl

theorem cartProd_zeros :
    ∀ n : ℕ, cartProd (List.replicate n ([0] : List ℕ)) =
      [List.replicate n 0] := by
  intro n
  induction n with
  | zero => rfl
  | succ k ih => simp [cartProd, List.replicate_succ, ih]

/-- C10: confirmed. With a zero budget, every per-channel domain is the
singleton `[0]` (for the pillar-3a channel because the remaining allowance
is floored at 0, for the others directly), the only enumerated combination
is all-zeros and is discarded as a no-op, so the results list is empty and
the run ends in the "no feasible allocations" advisory, not an error. -/
theorem C10_zero_budget_no_feasible_allocation (est : Estimate)
    (sel : List String) (hs : sel ≠ []) :
    optimizer_ranges est sel 0 = sel.map (fun _ => [0]) ∧
    optimizer_resultsList est sel 0 = [] ∧
    run_optimizer est sel 0 = OptResult.noFeasible := by
  have hr : optimizer_ranges est sel 0 = sel.map (fun _ => [0]) := by
    rw [optimizer_ranges]
    refine List.map_congr_left (fun cat _ => ?_)
    rw [channel_max_alloc]
    split
    · rw [min_eq_right (remaining_pillar3a_nonneg est), alloc_range_zero]
    · exact alloc_range_zero
  have hres : optimizer_resultsList est sel 0 = [] := by
    rw [optimizer_resultsList, hr, List.map_const', cartProd_zeros]
    simp [eval_combo, List.sum_replicate]
  have htc : total_combinations est sel 0 = 1 := by
    rw [total_combinations, if_neg hs, hr]
    simp [List.map_map, List.map_const', List.prod_replicate, int64wrap]
  refine ⟨hr, hres, ?_⟩
  rw [run_optimizer, htc, if_neg (by norm_num), if_pos hres]

/-- C10, witness: the zero-budget run with the single "Donations" channel
and the Zurich City baseline. -/
theorem C10_zero_budget_no_feasible_allocation_witness :
    optimizer_ranges estZurichCity ["Donations"] 0 =
      (["Donations"] : List String).map (fun _ => [0]) ∧
    optimizer_resultsList estZurichCity ["Donations"] 0 = [] ∧
    run_optimizer estZurichCity ["Donations"] 0 = OptResult.noFeasible :=
  C10_zero_budget_no_feasible_allocation estZurichCity ["Donations"]
    (by simp)

/-- Every element of an allocation range is strictly below
`max_alloc + 1e-9`, the `np.arange` stop value. -/
theorem alloc_range_lt {a : ℕ} {m : ℚ} (h : a ∈ alloc_range m) :
    (a : ℚ) < m + 1/1000000000 := by
  rw [alloc_range] at h
  simp only [List.mem_map, List.mem_range] at h
  obtain ⟨i, hi, rfl⟩ := h
  rw [arange_count] at hi
  split at hi
  · omega
  · have h1 : (i : ℤ) < ⌈(m + 1/1000000000) / 100⌉ := Int.lt_toNat.mp hi
    have h2 : ((⌈(m + 1/1000000000) / 100⌉ : ℤ) : ℚ) <
        (m + 1/1000000000) / 100 + 1 := Int.ceil_lt_add_one _
    have h3 : ((i : ℤ) : ℚ) + 1 ≤ ((⌈(m + 1/1000000000) / 100⌉ : ℤ) : ℚ) := by
      exact_mod_cast Int.add_one_le_of_lt h1
    push_cast at h2 h3 ⊢
    linarith

/-- A member of the Cartesian product picks its entries from the respective
domains. -/
theorem mem_cartProd : ∀ (Ls : List (List ℕ)) (c : List ℕ),
    c ∈ cartProd Ls → List.Forall₂ (fun a l => a ∈ l) c Ls := by
  intro Ls
  induction Ls with
  | nil =>
      intro c hc
      simp only [cartProd, List.mem_singleton] at hc
      subst hc
      exact List.Forall₂.nil
  | cons xs rest ih =>
      intro c hc
      simp only [cartProd, List.mem_flatMap, List.mem_map] at hc
      obtain ⟨x, hx, d, hd, rfl⟩ := hc
      exact List.Forall₂.cons hx (ih d hd)

/-- Looking a key up in the zipped allocation finds a value from that
channel's domain. -/
theorem forall₂_zip_lookup {f : String → List ℕ} :
    ∀ (sel : List String) (combo : List ℕ),
      List.Forall₂ (fun a l => a ∈ l) combo (sel.map f) →
      ∀ (k : String) (a : ℕ), (k, a) ∈ sel.zip combo → a ∈ f k := by
  intro sel
  induction sel with
  | nil =>
      intro combo _ k a hm
      simp at hm
  | cons s rest ih =>
      intro combo hf k a hm
      rw [List.map_cons] at hf
      cases hf with
      | cons hb htail =>
          rename_i b l
          rw [List.zip_cons_cons] at hm
          rcases List.mem_cons.mp hm with heq | hmem
          · cases heq
            exact hb
          · exact ih l htail k a hmem

/-- The per-candidate pillar-3a bound: every amount the candidate assigns to
the "Pillar 3a" channel stays below the remaining legal allowance
`pillar3a_cap - pillar3a_current` plus the `np.arange` epsilon `1e-9`. -/
def pillar3aWithin (est : Estimate) (c : Candidate) : Prop :=
  ∀ a : ℕ, ("Pillar 3a", a) ∈ c.alloc →
    (a : ℚ) < est.pillar3a_cap - est.pillar3a_current + 1/1000000000

/-- C6: corrected. Every candidate in the optimizer's results list has
`0 < extra`, `extra ≤ maxBudget + 1e-9`, and `extra` equal to the sum of
its per-channel amounts; and (for a baseline whose used pillar-3a amount
does not exceed its cap, as Tab 1 produces) any amount assigned to the
"Pillar 3a" channel is strictly below
`(pillar3a_cap - pillar3a_current) + 1e-9`. The original claim's strict
bound `amount ≤ pillar3a_cap - pillar3a_current` fails by up to the
`np.arange` epsilon; see the counterexample. -/
theorem C6_candidate_bounds (est : Estimate) (sel : List String)
    (max_budget : ℚ) (hcap : est.pillar3a_current ≤ est.pillar3a_cap)
    (c : Candidate) (hc : c ∈ optimizer_resultsList est sel max_budget) :
    (0 < c.extra ∧ (c.extra : ℚ) ≤ max_budget + 1/1000000000 ∧
      (c.alloc.map Prod.snd).sum = c.extra) ∧
    pillar3aWithin est c := by
  rw [optimizer_resultsList] at hc
  obtain ⟨combo, hcombo, heval⟩ := List.mem_filterMap.mp hc
  have hforall := mem_cartProd _ _ hcombo
  rw [eval_combo] at heval
  by_cases h1 : combo.sum = 0
  · rw [if_pos h1] at heval
    exact absurd heval (by simp)
  rw [if_neg h1] at heval
  by_cases h2 : max_budget + 1/1000000000 < (combo.sum : ℚ)
  · rw [if_pos h2] at heval
    exact absurd heval (by simp)
  rw [if_neg h2] at heval
  have hceq := Option.some.inj heval
  subst hceq
  constructor
  · refine ⟨Nat.pos_of_ne_zero h1, not_lt.mp h2, ?_⟩
    have hlen : combo.length = sel.length := by
      have hl := hforall.length_eq
      rwa [optimizer_ranges, List.length_map] at hl
    show ((sel.zip combo).map Prod.snd).sum = combo.sum
    rw [List.map_snd_zip sel combo (le_of_eq hlen)]
  · intro a ha
    have hmem : a ∈ alloc_range (channel_max_alloc est max_budget "Pillar 3a") := by
      refine @forall₂_zip_lookup
        (fun cat => alloc_range (channel_max_alloc est max_budget cat))
        sel combo ?_ "Pillar 3a" a ha
      rw [optimizer_ranges] at hforall
      exact hforall
    have hlt := alloc_range_lt hmem
    rw [channel_max_alloc, if_pos rfl] at hlt
    have hrem : remaining_pillar3a est =
        est.pillar3a_cap - est.pillar3a_current :=
      max_eq_right (sub_nonneg.mpr hcap)
    have hmin := min_le_left (remaining_pillar3a est) max_budget
    rw [hrem] at hmin hlt
    linarith

/-- A baseline with pillar-3a room 7056 used in the C6 witness run. -/
def estC6W : Estimate :=
  { taxable_income := 50000, total_tax := 0, commune_multiplier := 1,
    church_percent := 0, canton_factor := 1, pillar3a_current := 0,
    pillar3a_cap := 7056 }

/-- A baseline whose remaining pillar-3a allowance `100 - 10^-10` is
fractionally below the step: the C6 counterexample run. -/
def estC6X : Estimate :=
  { taxable_income := 50000, total_tax := 0, commune_multiplier := 1,
    church_percent := 0, canton_factor := 1,
    pillar3a_current := 6956 + 1/10000000000, pillar3a_cap := 7056 }

/-- The single candidate produced by both C6 runs: 100 CHF into the
pillar-3a channel from taxable income 50000 (tax drops from 0 recorded
baseline by -2673, i.e. `tax_saved = 0 - 2673`). -/
def candC6 : Candidate :=
  { alloc := [("Pillar 3a", 100)], extra := 100, tax_saved := -2673,
    net_cost := 2773, tax_after := 2673 }

theorem eval_combo_estC6W_100 :
    eval_combo estC6W ["Pillar 3a"] 100 [100] = some candC6 := by
  rw [eval_combo]
  norm_num [candC6, estC6W, calc_total_tax_from_ti, calc_church, calc_cantonal,
    zurich_basic_tax, federal_tax, evalBrackets, ZURICH_BASIC_BRACKETS,
    FEDERAL_BRACKETS, max_def]

theorem optimizer_resultsList_estC6W :
    optimizer_resultsList estC6W ["Pillar 3a"] 100 = [candC6] := by
  have hre : optimizer_ranges estC6W ["Pillar 3a"] 100 = [[0, 100]] := by
    rw [optimizer_ranges, List.map_cons, List.map_nil, channel_max_alloc,
      if_pos rfl]
    rw [show min (remaining_pillar3a estC6W) 100 = 100 from by
      norm_num [remaining_pillar3a, estC6W, min_def, max_def]]
    rw [alloc_range, arange_count_100_eq (100 + 1/1000000000) 2 (by norm_num)
      (by norm_num) (by norm_num)]
    rfl
  rw [optimizer_resultsList, hre,
    show cartProd [[0, 100]] = [[0], [100]] from rfl]
  have he0 : eval_combo estC6W ["Pillar 3a"] 100 [0] = none := by
    rw [eval_combo]
    simp
  simp [List.filterMap_cons, he0, eval_combo_estC6W_100]

/-- C6, witness: the bound applied to the single candidate of the
`estC6W` run with budget 100. -/
theorem C6_candidate_bounds_witness :
    (0 < candC6.extra ∧ (candC6.extra : ℚ) ≤ 100 + 1/1000000000 ∧
      (candC6.alloc.map Prod.snd).sum = candC6.extra) ∧
    pillar3aWithin estC6W candC6 :=
  C6_candidate_bounds estC6W ["Pillar 3a"] 100 (by norm_num [estC6W]) candC6
    (by rw [optimizer_resultsList_estC6W]; simp)

theorem eval_combo_estC6X_100 :
    eval_combo estC6X ["Pillar 3a"] 1000 [100] = some candC6 := by
  rw [eval_combo]
  norm_num [candC6, estC6X, calc_total_tax_from_ti, calc_church, calc_cantonal,
    zurich_basic_tax, federal_tax, evalBrackets, ZURICH_BASIC_BRACKETS,
    FEDERAL_BRACKETS, max_def]

theorem optimizer_resultsList_estC6X :
    optimizer_resultsList estC6X ["Pillar 3a"] 1000 = [candC6] := by
  have hre : optimizer_ranges estC6X ["Pillar 3a"] 1000 = [[0, 100]] := by
    rw [optimizer_ranges, List.map_cons, List.map_nil, channel_max_alloc,
      if_pos rfl]
    rw [show min (remaining_pillar3a estC6X) 1000 = 100 - 1/10000000000 from by
      norm_num [remaining_pillar3a, estC6X, min_def, max_def]]
    rw [alloc_range, arange_count_100_eq (100 - 1/10000000000 + 1/1000000000) 2
      (by norm_num) (by norm_num) (by norm_num)]
    rfl
  rw [optimizer_resultsList, hre,
    show cartProd [[0, 100]] = [[0], [100]] from rfl]
  have he0 : eval_combo estC6X ["Pillar 3a"] 1000 [0] = none := by
    rw [eval_combo]
    simp
  simp [List.filterMap_cons, he0, eval_combo_estC6X_100]

/-- C6, counterexample to the claim as stated: with remaining pillar-3a
allowance `7056 - (6956 + 10^-10) = 100 - 10^-10`, the `np.arange` stop
`remaining + 1e-9` reaches past 100, so the results list contains a
candidate whose pillar-3a amount 100 strictly exceeds
`pillar3a_cap - pillar3a_current`. -/
theorem C6_pillar3a_amount_can_exceed_allowance :
    candC6 ∈ optimizer_resultsList estC6X ["Pillar 3a"] 1000 ∧
    ("Pillar 3a", 100) ∈ candC6.alloc ∧
    estC6X.pillar3a_cap - estC6X.pillar3a_current < ((100 : ℕ) : ℚ) := by
  refine ⟨?_, ?_, ?_⟩
  · rw [optimizer_resultsList_estC6X]
    simp
  · simp [candC6]
  · norm_num [estC6X]

/-- The four-channel selection of the C7 run. -/
def selC7 : List String := ["Pillar 3a", "Pillar 2", "Donations", "Moving"]

/-- A baseline with ample pillar-3a room for the C7 run. -/
def estC7 : Estimate :=
  { taxable_income := 50000, total_tax := 0, commune_multiplier := 1,
    church_percent := 0, canton_factor := 1, pillar3a_current := 0,
    pillar3a_cap := 10000000 }

theorem alloc_range_length (m : ℚ) :
    (alloc_range m).length = arange_count (m + 1/1000000000) 100 := by
  rw [alloc_range]
  simp

/-- C7: code_bug. The guard `total_combinations > 200000` is computed by
`int(np.prod(counts))`, which wraps in `int64`. With budget 6,553,500 and
all four channels (step 100), every domain has 65536 values, the exact
product is `65536^4 = 2^64 > 200000`, but the wrapped product is 0, the
guard passes, and the optimizer proceeds to enumerate instead of refusing
to run. -/
theorem C7_overflow_defeats_search_space_guard :
    ((optimizer_ranges estC7 selC7 6553500).map List.length).prod = 2^64 ∧
    (200000 : ℕ) < 2^64 ∧
    total_combinations estC7 selC7 6553500 = 0 ∧
    refusesToRun (run_optimizer estC7 selC7 6553500) = false := by
  have hA : channel_max_alloc estC7 6553500 "Pillar 3a" = 6553500 := by
    rw [channel_max_alloc, if_pos rfl]
    norm_num [remaining_pillar3a, estC7, min_def, max_def]
  have hB : ∀ cat : String, cat ≠ "Pillar 3a" →
      channel_max_alloc estC7 6553500 cat = 6553500 := fun cat h => by
    rw [channel_max_alloc, if_neg h]
  have hprod : ((optimizer_ranges estC7 selC7 6553500).map List.length).prod =
      2^64 := by
    rw [optimizer_ranges, selC7]
    simp only [List.map_cons, List.map_nil]
    rw [hA, hB "Pillar 2" (by decide), hB "Donations" (by decide),
      hB "Moving" (by decide)]
    simp only [alloc_range_length]
    rw [arange_count_100_eq (6553500 + 1/1000000000) 65536 (by norm_num)
      (by norm_num) (by norm_num)]
    norm_num [List.prod_cons, List.prod_nil]
  have htc : total_combinations estC7 selC7 6553500 = 0 := by
    rw [total_combinations, if_neg (by simp [selC7]), hprod, int64wrap]
    norm_num
  refine ⟨hprod, by norm_num, htc, ?_⟩
  have hng : ¬ (200000 < total_combinations estC7 selC7 6553500) := by
    rw [htc]
    norm_num
  rw [run_optimizer, if_neg hng]
  split <;> rfl

/-- C9, witness: the theorem instantiated at `x = -5` and at the Zurich City
parameters. -/
theorem C9_nonpositive_income_all_components_zero_witness :
    zurich_basic_tax (-5) = 0 ∧ federal_tax (-5) = 0 ∧
    calc_cantonal estZurichCity (-5) = 0 ∧ calc_church estZurichCity (-5) = 0 ∧
    calc_total_tax_from_ti estZurichCity (-5) = 0 :=
  C9_nonpositive_income_all_components_zero (-5) (by norm_num) estZurichCity

end TaxOpt
